import Mathlib

/-!
Verification of the video captioner orchestration layer
(`lib/video_captioner.py` — the web version — and
`public/downloads/video_captioner_standalone.py` — the standalone version).

The Python code is shallowly embedded: pure string/arithmetic helpers become
Lean functions over `String`/`Nat`/`ℚ`; the external capabilities (the
translation service, the stream downloader, the encoder subprocess, the
filesystem) become explicit oracle parameters; file writes become returned
strings or explicit effect traces.
-/

unseal Rat.mul Rat.inv Rat.add Rat.sub Rat.ofScientific

/-! ## Decimal rendering of natural numbers (models Python `str(n)` / `f-string` `d` formatting) -/

/-- The ASCII digit character for `d % 10`. -/
def digitChar (d : Nat) : Char := Char.ofNat (48 + d % 10)

/-- Fueled digit accumulator: pushes the decimal digits of `n` (most
significant first) onto `acc`.  Fuel `n` itself is always enough, since the
recursion divides `n` by 10 each step. -/
def decDigitsGo : Nat → Nat → List Char → List Char
  | 0, n, acc => digitChar n :: acc
  | Nat.succ fuel, n, acc =>
    if n < 10 then digitChar n :: acc
    else decDigitsGo fuel (n / 10) (digitChar n :: acc)

/-- Decimal representation of a natural number, as Python `str` renders a
non-negative `int`. -/
def decRepr (n : Nat) : String := String.mk (decDigitsGo n n [])

/-- Zero-padding to a minimum width, as Python f-string formatting with a
zero-fill width specifier renders an `int`. -/
def padLeft (width n : Nat) : String :=
  if (decRepr n).length < width then
    String.mk (List.replicate (width - (decRepr n).length) '0' ++ (decRepr n).data)
  else decRepr n

theorem digitChar_isDigit (n : Nat) : (digitChar n).isDigit = true := by
  have h : n % 10 < 10 := Nat.mod_lt _ (by omega)
  have key : ∀ d, d < 10 → (Char.ofNat (48 + d)).isDigit = true := by decide
  have : digitChar n = Char.ofNat (48 + n % 10) := rfl
  rw [this]
  exact key _ h

theorem decDigitsGo_digits (fuel : Nat) :
    ∀ n acc, (∀ c ∈ acc, c.isDigit = true) → ∀ c ∈ decDigitsGo fuel n acc, c.isDigit = true := by
  induction fuel with
  | zero =>
    intro n acc hacc c hc
    simp only [decDigitsGo, List.mem_cons] at hc
    rcases hc with rfl | hc
    · exact digitChar_isDigit n
    · exact hacc c hc
  | succ fuel ih =>
    intro n acc hacc c hc
    simp only [decDigitsGo] at hc
    split at hc
    · rcases List.mem_cons.mp hc with rfl | hc
      · exact digitChar_isDigit n
      · exact hacc c hc
    · refine ih (n / 10) (digitChar n :: acc) ?_ c hc
      intro d hd
      rcases List.mem_cons.mp hd with rfl | hd
      · exact digitChar_isDigit n
      · exact hacc d hd

theorem decRepr_digits (n : Nat) : ∀ c ∈ (decRepr n).data, c.isDigit = true :=
  decDigitsGo_digits n n [] (by intro c hc; cases hc)

theorem padLeft_digits (w n : Nat) : ∀ c ∈ (padLeft w n).data, c.isDigit = true := by
  intro c hc
  unfold padLeft at hc
  split at hc
  · simp only [String.mk] at hc
    rcases List.mem_append.mp hc with hc | hc
    · have := List.eq_of_mem_replicate hc
      subst this
      decide
    · exact decRepr_digits n c hc
  · exact decRepr_digits n c hc

theorem string_length_mk (l : List Char) : (String.mk l).length = l.length := rfl

theorem string_data_length (s : String) : s.data.length = s.length := rfl

theorem padLeft_length (w n : Nat) : (padLeft w n).length = max w (decRepr n).length := by
  unfold padLeft
  split
  · rename_i h
    rw [string_length_mk, List.length_append, List.length_replicate, string_data_length]
    omega
  · rename_i h
    omega

set_option maxRecDepth 10000 in
theorem decRepr_length_le_two : ∀ n, n < 100 → (decRepr n).length ≤ 2 := by decide

set_option maxRecDepth 100000 in
theorem decRepr_length_le_three : ∀ n, n < 1000 → (decRepr n).length ≤ 3 := by decide

/-! ## Python-style string helpers -/

/-- Models Python `str.strip()`: drop whitespace from both ends. -/
def pyStrip (s : String) : String :=
  String.mk (((s.data.dropWhile Char.isWhitespace).reverse.dropWhile Char.isWhitespace).reverse)

/-- Models Python `str.replace(old, new)` for a single-character pattern and a
single-character replacement: every occurrence of `old` becomes `new`. -/
def pyReplaceChar (old new : Char) (s : String) : String :=
  String.mk (s.data.map (fun c => if c = old then new else c))

/-- Models `os.path.join(a, b)` (POSIX) for the shapes this program uses. -/
def pyJoin (a b : String) : String :=
  if a = "" then b
  else if b.startsWith ("/") then b
  else if a.endsWith ("/") then a ++ b
  else a ++ "/" ++ b

theorem mem_of_mem_dropWhile {p : Char → Bool} {l : List Char} {c : Char}
    (h : c ∈ l.dropWhile p) : c ∈ l := by
  induction l with
  | nil => cases h
  | cons a l ih =>
    simp only [List.dropWhile] at h
    split at h
    · exact List.mem_cons_of_mem a (ih h)
    · exact h

theorem mem_of_mem_pyStrip {s : String} {c : Char} (h : c ∈ (pyStrip s).data) : c ∈ s.data := by
  unfold pyStrip at h
  simp only [String.mk] at h
  rw [List.mem_reverse] at h
  have h2 := mem_of_mem_dropWhile h
  rw [List.mem_reverse] at h2
  exact mem_of_mem_dropWhile h2

theorem pyStrip_length_le (s : String) : (pyStrip s).length ≤ s.length := by
  unfold pyStrip
  rw [string_length_mk, List.length_reverse]
  calc ((s.data.dropWhile Char.isWhitespace).reverse.dropWhile Char.isWhitespace).length
      ≤ (s.data.dropWhile Char.isWhitespace).reverse.length :=
        List.Sublist.length_le (List.dropWhile_sublist _)
    _ = (s.data.dropWhile Char.isWhitespace).length := List.length_reverse _
    _ ≤ s.data.length := List.Sublist.length_le (List.dropWhile_sublist _)

/-! ## Language code normalizer (`normalize_language_code`, both files) -/

/-- `normalize_language_code`: convert Whisper language codes to Google
Translate codes via the fixed table `{he: iw, zh: zh-CN, jw: jv}`; unknown
codes pass through. -/
def normalize_language_code (code : String) : String :=
  if code = "he" then "iw"
  else if code = "zh" then "zh-CN"
  else if code = "jw" then "jv"
  else code

/-! ## Timestamp formatter (`format_timestamp`, both files)

The Python source computes with floats; the embedding uses exact rationals.
Python `a % b` for positive `b` is `a - b * ⌊a / b⌋`, `a // b` is `⌊a / b⌋`,
and `int(x)` truncates toward zero, which on the non-negative quantities used
here coincides with the floor. -/

/-- Executable floor of a rational (equals `Int.floor`, see `pyFloor_eq`). -/
def pyFloor (q : ℚ) : ℤ := q.num / q.den

theorem pyFloor_eq (q : ℚ) : pyFloor q = ⌊q⌋ := Rat.floor_def.symm

/-- Python `a % b` on numbers, for positive modulus. -/
def pyMod (a b : ℚ) : ℚ := a - b * pyFloor (a / b)

/-- `format_timestamp(seconds)`: render fractional seconds as `HH:MM:SS,mmm`
with truncated milliseconds. -/
def format_timestamp (seconds : ℚ) : String :=
  padLeft 2 (pyFloor (seconds / 3600)).toNat ++ ":" ++
  padLeft 2 (pyFloor (pyMod seconds 3600 / 60)).toNat ++ ":" ++
  padLeft 2 (pyFloor (pyMod seconds 60)).toNat ++ "," ++
  padLeft 3 (pyFloor (pyMod seconds 1 * 1000)).toNat

theorem pyMod_eq_fract (a b : ℚ) (hb : b ≠ 0) : pyMod a b = b * Int.fract (a / b) := by
  unfold pyMod Int.fract
  rw [pyFloor_eq]
  field_simp

theorem pyMod_nonneg (a b : ℚ) (hb : 0 < b) : 0 ≤ pyMod a b := by
  rw [pyMod_eq_fract a b (ne_of_gt hb)]
  exact mul_nonneg hb.le (Int.fract_nonneg _)

theorem pyMod_lt (a b : ℚ) (hb : 0 < b) : pyMod a b < b := by
  rw [pyMod_eq_fract a b (ne_of_gt hb)]
  have h1 : Int.fract (a / b) < 1 := Int.fract_lt_one _
  nlinarith

theorem padLeft_two_length {n : Nat} (h : n < 100) : (padLeft 2 n).length = 2 := by
  rw [padLeft_length]
  have := decRepr_length_le_two n h
  omega

theorem padLeft_three_length {n : Nat} (h : n < 1000) : (padLeft 3 n).length = 3 := by
  rw [padLeft_length]
  have := decRepr_length_le_three n h
  omega

theorem minutes_floor_lt (s : ℚ) : pyFloor (pyMod s 3600 / 60) < 60 := by
  rw [pyFloor_eq]
  refine Int.floor_lt.mpr ?_
  push_cast
  rw [div_lt_iff₀ (by norm_num : (0:ℚ) < 60)]
  have := pyMod_lt s 3600 (by norm_num)
  linarith

theorem secs_floor_lt (s : ℚ) : pyFloor (pyMod s 60) < 60 := by
  rw [pyFloor_eq]
  refine Int.floor_lt.mpr ?_
  push_cast
  exact pyMod_lt s 60 (by norm_num)

theorem millis_floor_lt (s : ℚ) : pyFloor (pyMod s 1 * 1000) < 1000 := by
  rw [pyFloor_eq]
  refine Int.floor_lt.mpr ?_
  push_cast
  have := pyMod_lt s 1 (by norm_num)
  nlinarith

/-- C2: for every non-negative fractional seconds value, `format_timestamp`
produces a string of shape `HH:MM:SS,mmm` — an hours field of at least two
digits (unbounded, not wrapped at 24), two-digit minutes and seconds,
three-digit milliseconds, all fields decimal digits — and on the spec's
examples: `3725.4 ↦ 01:02:05,400`, `0 ↦ 00:00:00,000`, `59.999 ↦
00:00:59,999` (truncation, not rounding), and `90000.5 ↦ 25:00:00,500`
(hours pass 24 unwrapped). -/
theorem C2_format_timestamp_pattern :
    (∀ s : ℚ, 0 ≤ s →
      ∃ hh mm ss mmm : String,
        format_timestamp s = hh ++ ":" ++ mm ++ ":" ++ ss ++ "," ++ mmm ∧
        2 ≤ hh.length ∧ mm.length = 2 ∧ ss.length = 2 ∧ mmm.length = 3 ∧
        (∀ c ∈ hh.data ++ mm.data ++ ss.data ++ mmm.data, c.isDigit = true)) ∧
    format_timestamp (3725.4 : ℚ) = "01:02:05,400" ∧
    format_timestamp (0 : ℚ) = "00:00:00,000" ∧
    format_timestamp (59.999 : ℚ) = "00:00:59,999" ∧
    format_timestamp (90000.5 : ℚ) = "25:00:00,500" := by
  refine ⟨?_, by decide, by decide, by decide, by decide⟩
  intro s _
  refine ⟨padLeft 2 (pyFloor (s / 3600)).toNat, padLeft 2 (pyFloor (pyMod s 3600 / 60)).toNat,
    padLeft 2 (pyFloor (pyMod s 60)).toNat, padLeft 3 (pyFloor (pyMod s 1 * 1000)).toNat,
    rfl, ?_, ?_, ?_, ?_, ?_⟩
  · rw [padLeft_length]
    exact le_max_left _ _
  · refine padLeft_two_length ?_
    have := minutes_floor_lt s
    omega
  · refine padLeft_two_length ?_
    have := secs_floor_lt s
    omega
  · refine padLeft_three_length ?_
    have := millis_floor_lt s
    omega
  · intro c hc
    rcases List.mem_append.mp hc with hc | hc
    · rcases List.mem_append.mp hc with hc | hc
      · rcases List.mem_append.mp hc with hc | hc
        · exact padLeft_digits _ _ c hc
        · exact padLeft_digits _ _ c hc
      · exact padLeft_digits _ _ c hc
    · exact padLeft_digits _ _ c hc

/-- Witness for C2 at the concrete input `0`. -/
theorem C2_format_timestamp_pattern_witness :
    ∃ hh mm ss mmm : String,
      format_timestamp (0 : ℚ) = hh ++ ":" ++ mm ++ ":" ++ ss ++ "," ++ mmm ∧
      2 ≤ hh.length ∧ mm.length = 2 ∧ ss.length = 2 ∧ mmm.length = 3 ∧
      (∀ c ∈ hh.data ++ mm.data ++ ss.data ++ mmm.data, c.isDigit = true) :=
  C2_format_timestamp_pattern.1 0 (by norm_num)

/-! ## Translation adapter (`translate_text`, both files)

The external `GoogleTranslator(...).translate(text)` call is modelled as an
oracle from normalized source code, normalized target code and text to an
outcome: an exception, or a returned value (`none` models Python `None`, and
the empty string is Python-falsy, so both degrade to the original text). -/

/-- Outcome of one call to the external translation capability. -/
inductive TransResult where
  | raises (msg : String)
  | returns (r : Option String)
deriving DecidableEq

/-- The external translation capability, as an oracle. -/
def Translator : Type := String → String → String → TransResult

/-- A failing outcome: an exception, no response, or an empty response. -/
def TransResult.isFailure : TransResult → Bool
  | .raises _ => true
  | .returns none => true
  | .returns (some s) => s == ""

/-- `if not source_lang: source_lang = auto; else: normalize`. -/
def normalizeSource : Option String → String
  | none => "auto"
  | some s => if s = "" then "auto" else normalize_language_code s

/-- `translate_text(text, source_lang, target_lang)`: normalize both codes,
call the external capability, and on any failure return the input text. -/
def translate_text (tr : Translator) (text : String) (source_lang : Option String)
    (target_lang : String) : String :=
  match tr (normalizeSource source_lang) (normalize_language_code target_lang) text with
  | .raises _ => text
  | .returns none => text
  | .returns (some t) => if t = "" then text else t

/-! ## Subtitle emitter (`generate_srt`, both files)

The file written to `output_path` is modelled as the returned string: the
concatenation, in order, of everything the loop passes to `f.write`. -/

/-- A Whisper segment: `start`/`stop` model the `start`/`end` offsets
(`end` is a reserved word in Lean), `text` the transcribed text. -/
structure Segment where
  start : ℚ
  stop : ℚ
  text : String

/-- The `for i, segment in enumerate(segments, start=1)` loop body of
`generate_srt`, accumulating the written file content. -/
def generate_srt_aux (tr : Translator) (translate_to source_lang : Option String) :
    Nat → List Segment → String
  | _, [] => ""
  | i, seg :: rest =>
    (decRepr i ++ "\n" ++
     format_timestamp seg.start ++ " --> " ++ format_timestamp seg.stop ++ "\n" ++
     (match translate_to with
      | none => pyStrip seg.text
      | some t => if t = "" then pyStrip seg.text
                  else translate_text tr (pyStrip seg.text) source_lang t) ++ "\n\n") ++
    generate_srt_aux tr translate_to source_lang (i + 1) rest

/-- `generate_srt(segments, output_path, translate_to, source_lang)`:
the content written to `output_path`. -/
def generate_srt (tr : Translator) (segments : List Segment)
    (translate_to source_lang : Option String) : String :=
  generate_srt_aux tr translate_to source_lang 1 segments

/-- One subtitle record as the spec's words describe it (4.4): sequence-number
line, `start --> end` line via the Timestamp Formatter, trimmed text line,
blank separator line. -/
def srt_spec_record (i : Nat) (seg : Segment) : String :=
  decRepr i ++ "\n" ++
  format_timestamp seg.start ++ " --> " ++ format_timestamp seg.stop ++ "\n" ++
  pyStrip seg.text ++ "\n\n"

/-- The spec-side record list: records numbered `1..N`, in input order. -/
def srt_spec_records (segments : List Segment) : List String :=
  (List.enumFrom 1 segments).map (fun p => srt_spec_record p.1 p.2)

/-- Concatenation of a list of strings, in order. -/
def concatStrings : List String → String
  | [] => ""
  | s :: l => s ++ concatStrings l

/-! ## Safe base-name derivation (`main`, both files)

Python's `c.isalnum()` is Unicode-aware (it also accepts non-ASCII letters
and digits such as `é`), so it is passed in as an oracle rather than fixed to
an ASCII predicate.  On ASCII characters Python's classifier coincides with
`Char.isAlphanum`, so concrete evaluations on ASCII-only titles instantiate
the oracle with `Char.isAlphanum`. -/

/-- The two safe-title lines of `main`: keep only the characters `isalnum`
accepts plus spaces, hyphens, underscores; strip; replace spaces with
underscores. -/
def safe_name (isalnum : Char → Bool) (video_title : String) : String :=
  pyReplaceChar ' ' '_'
    (pyStrip (String.mk (video_title.data.filter
      (fun c => isalnum c || c == ' ' || c == '-' || c == '_'))))

/-! ## Claim C5 — language code normalizer -/

/-- C5: `normalize_language_code` is a total pure function: every code outside
the fixed table passes through unchanged, it is idempotent on every input
string, `he ↦ iw` and `en ↦ en`. -/
theorem C5_normalize_language_code_total_idempotent :
    (∀ code : String,
      normalize_language_code (normalize_language_code code) = normalize_language_code code) ∧
    (∀ code : String, code ≠ "he" → code ≠ "zh" → code ≠ "jw" →
      normalize_language_code code = code) ∧
    normalize_language_code ("he") = "iw" ∧
    normalize_language_code ("en") = "en" := by
  refine ⟨?_, ?_, by decide, by decide⟩
  · intro code
    by_cases h1 : code = "he"
    · subst h1; decide
    by_cases h2 : code = "zh"
    · subst h2; decide
    by_cases h3 : code = "jw"
    · subst h3; decide
    simp [normalize_language_code, h1, h2, h3]
  · intro code h1 h2 h3
    simp [normalize_language_code, h1, h2, h3]

/-- Witness for C5: the unmapped code `fr` passes through unchanged. -/
theorem C5_normalize_language_code_witness : normalize_language_code ("fr") = "fr" :=
  C5_normalize_language_code_total_idempotent.2.1 ("fr") (by decide) (by decide) (by decide)

/-! ## Claim C1 — translation adapter failure fallback -/

/-- C1: whenever the external translation capability fails (raises, returns
nothing, or returns an empty response), `translate_text` returns the original
input text unchanged — and, being a total function into `String`, it never
raises to its caller. -/
theorem C1_translate_text_failure_returns_input (tr : Translator) (text : String)
    (source_lang : Option String) (target_lang : String)
    (h : ∀ src tgt t, (tr src tgt t).isFailure = true) :
    translate_text tr text source_lang target_lang = text := by
  unfold translate_text
  have hh := h (normalizeSource source_lang) (normalize_language_code target_lang) text
  cases h2 : tr (normalizeSource source_lang) (normalize_language_code target_lang) text with
  | raises msg => rfl
  | returns r =>
    cases r with
    | none => rfl
    | some t =>
      rw [h2] at hh
      simp only [TransResult.isFailure, beq_iff_eq] at hh
      simp [hh]

/-- Witness for C1: a capability that always raises leaves `hello` unchanged. -/
theorem C1_translate_text_witness :
    translate_text (fun _ _ _ => TransResult.raises ("network error")) ("hello")
      (some ("en")) ("es") = "hello" :=
  C1_translate_text_failure_returns_input _ _ _ _ (fun _ _ _ => rfl)

/-! ## Claim C3 — emitted SRT structure with no translation requested -/

theorem generate_srt_aux_none (tr : Translator) (source_lang : Option String) :
    ∀ (segments : List Segment) (i : Nat),
      generate_srt_aux tr none source_lang i segments =
        concatStrings ((List.enumFrom i segments).map (fun p => srt_spec_record p.1 p.2)) := by
  intro segments
  induction segments with
  | nil => intro i; rfl
  | cons seg rest ih =>
    intro i
    simp only [generate_srt_aux, List.enumFrom, List.map_cons, concatStrings]
    rw [ih]
    rfl

/-- C3: with no translation requested, the emitted file is exactly the
concatenation of one record per segment — numbered from 1 in input order, each
consisting of the sequence-number line, the `start --> end` line produced by
the timestamp formatter, the segment text trimmed of surrounding whitespace,
and a blank separator line — and the number of records equals the number of
segments. -/
theorem C3_generate_srt_round_trip (tr : Translator) (segments : List Segment)
    (source_lang : Option String) :
    generate_srt tr segments none source_lang = concatStrings (srt_spec_records segments) ∧
    (srt_spec_records segments).length = segments.length := by
  constructor
  · exact generate_srt_aux_none tr source_lang segments 1
  · simp [srt_spec_records]

/-! ## Claim C6 — filesystem-safe base name -/

/-- C6 counterexample: the dot of the extension is not alphanumeric, so it is
dropped as well — the derived name for `My: Cool/Video?.mp4` is not the
spec's `My_CoolVideo.mp4`.  Every character of this title is ASCII, where
Python's `isalnum` coincides with `Char.isAlphanum`, so this instance of the
oracle evaluates the program exactly on this input. -/
theorem C6_safe_name_counterexample :
    safe_name Char.isAlphanum ("My: Cool/Video?.mp4") ≠ "My_CoolVideo.mp4" := by decide

/-- C6 (amended): for any alphanumeric classifier, the derived base name
keeps only the characters it accepts plus spaces, hyphens and underscores,
trims surrounding whitespace, replaces spaces with underscores (so every
character of the result is accepted-alphanumeric, a hyphen or an underscore,
and nothing is escaped — the result never grows), and the ASCII title
`My: Cool/Video?.mp4` maps to `My_CoolVideomp4` — the punctuation `:`, `/`,
`?` and also the `.` are dropped, not escaped. -/
theorem C6_safe_name_characterization :
    (∀ (isalnum : Char → Bool) (title : String),
      (safe_name isalnum title).length ≤ title.length ∧
      (∀ c ∈ (safe_name isalnum title).data, (isalnum c || c == '-' || c == '_') = true)) ∧
    safe_name Char.isAlphanum ("My: Cool/Video?.mp4") = "My_CoolVideomp4" := by
  refine ⟨?_, by decide⟩
  intro isalnum title
  constructor
  · unfold safe_name
    calc (pyReplaceChar ' ' '_' _).length
        = _ := by rw [pyReplaceChar, string_length_mk, List.length_map, string_data_length]
      _ ≤ (String.mk (title.data.filter
            (fun c => isalnum c || c == ' ' || c == '-' || c == '_'))).length :=
          pyStrip_length_le _
      _ ≤ title.length := by
          rw [string_length_mk]
          exact List.length_filter_le _ _
  · intro c hc
    unfold safe_name pyReplaceChar at hc
    simp only [String.mk] at hc
    rcases List.mem_map.mp hc with ⟨d, hd, hdc⟩
    have hd2 := mem_of_mem_pyStrip hd
    simp only [String.mk] at hd2
    have hkeep := List.of_mem_filter hd2
    by_cases hsp : d = ' '
    · subst hsp
      simp only [if_pos rfl] at hdc
      subst hdc
      simp
    · rw [if_neg hsp] at hdc
      subst hdc
      simp only [Bool.or_eq_true, beq_iff_eq] at hkeep ⊢
      rcases hkeep with ((h | h) | h) | h
      · exact Or.inl (Or.inl h)
      · exact absurd h hsp
      · exact Or.inl (Or.inr h)
      · exact Or.inr h

/-- Witness for C6: membership hypothesis discharged at a concrete classifier
and title. -/
theorem C6_safe_name_witness :
    ((Char.isAlphanum '_' || ('_' : Char) == '-' || ('_' : Char) == '_') = true) ∧
    (safe_name Char.isAlphanum ("a b")).length ≤ ("a b" : String).length :=
  ⟨(C6_safe_name_characterization.1 Char.isAlphanum ("a b")).2 '_' (by decide),
   (C6_safe_name_characterization.1 Char.isAlphanum ("a b")).1⟩

/-! ## Local-file acquisition step (`main`, both files) — claim C7 -/

/-- Split a character list on a separator; mirrors `str.split(sep)`. -/
def splitOnChar (sep : Char) : List Char → List (List Char)
  | [] => [[]]
  | c :: rest =>
    if c = sep then [] :: splitOnChar sep rest
    else match splitOnChar sep rest with
      | [] => [[c]]
      | g :: gs => (c :: g) :: gs

/-- Re-join groups with a dot separator. -/
def joinWithDot : List (List Char) → List Char
  | [] => []
  | [g] => g
  | g :: gs => g ++ '.' :: joinWithDot gs

/-- `pathlib.Path(p).stem`: the final path component without its last
extension (a dotfile-style name keeps its dot). -/
def pathStem (p : String) : String :=
  match (splitOnChar '/' p.data).getLastD p.data with
  | b =>
    match splitOnChar '.' b with
    | [] => String.mk b
    | [_] => String.mk b
    | [] :: [_] => String.mk b
    | parts => String.mk (joinWithDot parts.dropLast)

/-- Web `main`, non-YouTube branch (lines 148–150): the input path is used
as-is.  The `fsExists` parameter is the filesystem oracle available to the
run; the web code never consults it — there is no existence check. -/
def web_acquire_local (_fsExists : String → Bool) (input : String) :
    Except String (String × String) :=
  Except.ok (input, pathStem input)

/-- Standalone `main`, non-YouTube branch (lines 198–203): validate that the
local path exists, else fail the run with a file-not-found error. -/
def standalone_acquire_local (fsExists : String → Bool) (input : String) :
    Except String (String × String) :=
  if fsExists input then Except.ok (input, pathStem input)
  else Except.error ("File not found: " ++ input)

/-- C7 counterexample: under a filesystem in which no path exists, the web
orchestrator still proceeds with the missing path instead of failing with a
file-not-found error — it performs no existence check. -/
theorem C7_web_no_existence_check_counterexample :
    web_acquire_local (fun _ => false) ("missing.mp4") =
      Except.ok ("missing.mp4", "missing") := rfl

/-- C7 (amended): only the standalone orchestrator validates that a local
input path exists and fails fatally with a file-not-found error when it does
not; the web orchestrator proceeds with the path unchecked. -/
theorem C7_local_path_validation :
    (∀ (fsExists : String → Bool) (input : String), fsExists input = false →
      standalone_acquire_local fsExists input = Except.error ("File not found: " ++ input)) ∧
    (∀ (fsExists : String → Bool) (input : String),
      web_acquire_local fsExists input = Except.ok (input, pathStem input)) := by
  constructor
  · intro fsExists input h
    simp [standalone_acquire_local, h]
  · intro fsExists input
    rfl

/-- Witness for C7 at a concrete filesystem and path. -/
theorem C7_local_path_validation_witness :
    standalone_acquire_local (fun _ => false) ("missing.mp4") =
      Except.error ("File not found: missing.mp4") :=
  C7_local_path_validation.1 (fun _ => false) ("missing.mp4") rfl

/-! ## Media acquirer (`download_youtube_video`, both files) — claim C8 -/

/-- What one `YoutubeDL.extract_info` attempt yields: the prepared filename,
and the optional `title` and `duration` entries of the info dict. -/
structure YdlInfo where
  filename : String
  title : Option String
  duration : Option ℚ
deriving DecidableEq

/-- The stream downloader oracle: URL and format selector to outcome
(an exception, or an info dict). -/
def Downloader : Type := String → String → Except String YdlInfo

/-- `download_youtube_video(url, output_dir)`: try format `18` first; on any
failure retry once with `best[height<=720]/best`; a second failure
propagates.  Returns `(filename, title or video, duration or 0)`. -/
def download_youtube_video (ydl : Downloader) (url : String) :
    Except String (String × String × ℚ) :=
  match ydl url ("18") with
  | .ok info => .ok (info.filename, info.title.getD ("video"), info.duration.getD 0)
  | .error _ =>
    match ydl url ("best[height<=720]/best") with
    | .ok info => .ok (info.filename, info.title.getD ("video"), info.duration.getD 0)
    | .error e => .error e

/-- C8: the downloader first attempts format `18`; if that fails it retries
exactly once with `best[height<=720]/best`; if both fail the second error
propagates (fatal); on success it returns the file path, the display title
(defaulting to `video`) and the duration in seconds (0 if unknown). -/
theorem C8_download_youtube_video_fallback (ydl : Downloader) (url : String) :
    (∀ info, ydl url ("18") = .ok info →
      download_youtube_video ydl url =
        .ok (info.filename, info.title.getD ("video"), info.duration.getD 0)) ∧
    (∀ e info, ydl url ("18") = .error e →
      ydl url ("best[height<=720]/best") = .ok info →
      download_youtube_video ydl url =
        .ok (info.filename, info.title.getD ("video"), info.duration.getD 0)) ∧
    (∀ e1 e2, ydl url ("18") = .error e1 →
      ydl url ("best[height<=720]/best") = .error e2 →
      download_youtube_video ydl url = .error e2) := by
  refine ⟨?_, ?_, ?_⟩
  · intro info h
    unfold download_youtube_video
    rw [h]
  · intro e info h1 h2
    unfold download_youtube_video
    rw [h1, h2]
  · intro e1 e2 h1 h2
    unfold download_youtube_video
    rw [h1, h2]

/-- Witness for C8: the preferred format is unavailable, the capped-quality
retry succeeds, and both title and duration come through. -/
theorem C8_download_youtube_video_witness :
    download_youtube_video
      (fun _ fmt => if fmt = "18" then Except.error ("requested format not available")
                    else Except.ok ⟨"v.mp4", some ("T"), some 12⟩) ("u") =
      Except.ok ("v.mp4", "T", 12) :=
  (C8_download_youtube_video_fallback _ ("u")).2.1 "requested format not available"
    ⟨"v.mp4", some ("T"), some 12⟩ rfl rfl

/-! ## Caption burner (`burn_captions`, both files) — claim C9

Filesystem writes to the destination happen only inside the external encoder
invocation, so the model returns, besides the boolean result, the list of
encoder invocations performed (each one the argument vector passed to
`subprocess.run`). -/

/-- The execution environment of the burner: whether `shutil.which("ffmpeg")`
finds the encoder, and the encoder subprocess itself (`subprocess.run` with
`check=True`: an error models `CalledProcessError`). -/
structure BurnEnv where
  ffmpeg_available : Bool
  run : List String → Except String Unit

/-- A single-quote character (kept out of string literals). -/
def squote : String := String.mk [Char.ofNat 39]

/-- Append each character, expanding `:` to `\:`; the second half of the
filter-path escaping. -/
def escapeColons : List Char → List Char
  | [] => []
  | c :: rest =>
    if c = ':' then '\\' :: ':' :: escapeColons rest
    else c :: escapeColons rest

/-- `srt_path.replace("\\", "/").replace(":", "\\:")`. -/
def srtPathEscape (s : String) : String :=
  String.mk (escapeColons (pyReplaceChar '\\' '/' s).data)

/-- `burn_captions(video_path, srt_path, output_path)`: returns the Python
function's boolean result together with the encoder invocations performed. -/
def burn_captions (env : BurnEnv) (video_path srt_path output_path : String) :
    Bool × List (List String) :=
  if env.ffmpeg_available = false then (false, [])
  else
    match env.run (["ffmpeg", "-i", video_path, "-vf",
        "subtitles=" ++ squote ++ srtPathEscape srt_path ++ squote,
        "-c:a", "copy", "-y", output_path]) with
    | .ok _ => (true, [["ffmpeg", "-i", video_path, "-vf",
        "subtitles=" ++ squote ++ srtPathEscape srt_path ++ squote,
        "-c:a", "copy", "-y", output_path]])
    | .error _ => (false, [["ffmpeg", "-i", video_path, "-vf",
        "subtitles=" ++ squote ++ srtPathEscape srt_path ++ squote,
        "-c:a", "copy", "-y", output_path]])

/-- C9: when the encoder binary is unavailable, `burn_captions` returns
failure immediately with an empty invocation list — it never invokes the
encoder, hence performs no filesystem write to the destination path. -/
theorem C9_burn_captions_no_encoder (env : BurnEnv)
    (video_path srt_path output_path : String)
    (h : env.ffmpeg_available = false) :
    burn_captions env video_path srt_path output_path = (false, []) := by
  simp [burn_captions, h]

/-- Witness for C9 at a concrete environment without the encoder. -/
theorem C9_burn_captions_no_encoder_witness :
    burn_captions ⟨false, fun _ => Except.ok ()⟩ ("v.mp4") ("s.srt") ("o.mp4") = (false, []) :=
  C9_burn_captions_no_encoder _ _ _ _ rfl

/-! ## Web `main` output phase (lines 221–260) — claims C4 and C10

The tail of the web orchestrator after the SRT is generated: build the output
file name and the `result_data` dictionary (with `success: True`), then
either burn or copy.  The printed JSON object becomes a `RunResult` record;
each `shutil.copy(src, dst)` becomes a `(src, dst)` pair in the returned
effect trace. -/

/-- The Run Result the web orchestrator prints as JSON.  Fields absent from
the Python dict on a given path are `none`. -/
structure RunResult where
  success : Bool
  output : String
  detected_lang : String
  video_title : String
  duration : ℚ
  subtitle_lang : String
  video_output : Option String
  warning : Option String
deriving DecidableEq

/-- Lines 221–260 of the web `main`: on burn success print `result_data`
unchanged; on burn failure copy both the SRT and the original video into the
output directory, point `output` at the fallback SRT, and add `video_output`
and `warning`; without burning copy the SRT to the output path. -/
def web_output_phase (env : BurnEnv) (burn : Bool)
    (output_dir safe_title language_suffix srt_path video_path detected_lang video_title : String)
    (duration : ℚ) (subtitle_lang : String) : RunResult × List (String × String) :=
  if burn then
    if (burn_captions env video_path srt_path
          (pyJoin output_dir (safe_title ++ language_suffix ++ "_captioned.mp4"))).1 then
      (⟨true, safe_title ++ language_suffix ++ "_captioned.mp4", detected_lang, video_title,
        duration, subtitle_lang, none, none⟩, [])
    else
      (⟨true, safe_title ++ language_suffix ++ ".srt", detected_lang, video_title,
        duration, subtitle_lang, some (safe_title ++ "_original.mp4"),
        some ("Burned captions failed. Saved as separate SRT and video files.")⟩,
       [(srt_path, pyJoin output_dir (safe_title ++ language_suffix ++ ".srt")),
        (video_path, pyJoin output_dir (safe_title ++ "_original.mp4"))])
  else
    (⟨true, safe_title ++ language_suffix ++ ".srt", detected_lang, video_title,
      duration, subtitle_lang, none, none⟩,
     [(srt_path, pyJoin output_dir (safe_title ++ language_suffix ++ ".srt"))])

/-- C4: when burning is requested and the burn attempt fails, the run copies
both the subtitle file `<base><suffix>.srt` and the original video as
`<base>_original.mp4` into the output directory, and the Run Result reports
both names (`output` and `video_output`) plus a non-empty warning. -/
theorem C4_burn_failure_persists_both (env : BurnEnv)
    (output_dir safe_title language_suffix srt_path video_path detected_lang video_title : String)
    (duration : ℚ) (subtitle_lang : String)
    (h : (burn_captions env video_path srt_path
          (pyJoin output_dir (safe_title ++ language_suffix ++ "_captioned.mp4"))).1 = false) :
    (web_output_phase env true output_dir safe_title language_suffix srt_path video_path
      detected_lang video_title duration subtitle_lang).1.output =
        safe_title ++ language_suffix ++ ".srt" ∧
    (web_output_phase env true output_dir safe_title language_suffix srt_path video_path
      detected_lang video_title duration subtitle_lang).1.video_output =
        some (safe_title ++ "_original.mp4") ∧
    (∃ w, (web_output_phase env true output_dir safe_title language_suffix srt_path video_path
      detected_lang video_title duration subtitle_lang).1.warning = some w ∧ w ≠ "") ∧
    (web_output_phase env true output_dir safe_title language_suffix srt_path video_path
      detected_lang video_title duration subtitle_lang).2 =
        [(srt_path, pyJoin output_dir (safe_title ++ language_suffix ++ ".srt")),
         (video_path, pyJoin output_dir (safe_title ++ "_original.mp4"))] := by
  refine ⟨?_, ?_, ⟨"Burned captions failed. Saved as separate SRT and video files.",
    ?_, by decide⟩, ?_⟩ <;>
    simp [web_output_phase, h]

/-- Witness for C4 at a concrete run whose environment lacks the encoder. -/
theorem C4_burn_failure_persists_both_witness :
    (web_output_phase ⟨false, fun _ => Except.ok ()⟩ true ("out") ("t") ("") ("tmp/t.srt")
      ("tmp/v.mp4") ("en") ("T") 0 ("en")).1.output = "t" ++ "" ++ ".srt" ∧
    (web_output_phase ⟨false, fun _ => Except.ok ()⟩ true ("out") ("t") ("") ("tmp/t.srt")
      ("tmp/v.mp4") ("en") ("T") 0 ("en")).1.video_output = some ("t" ++ "_original.mp4") ∧
    (∃ w, (web_output_phase ⟨false, fun _ => Except.ok ()⟩ true ("out") ("t") ("") ("tmp/t.srt")
      ("tmp/v.mp4") ("en") ("T") 0 ("en")).1.warning = some w ∧ w ≠ "") ∧
    (web_output_phase ⟨false, fun _ => Except.ok ()⟩ true ("out") ("t") ("") ("tmp/t.srt")
      ("tmp/v.mp4") ("en") ("T") 0 ("en")).2 =
        [("tmp/t.srt", pyJoin ("out") ("t" ++ "" ++ ".srt")),
         ("tmp/v.mp4", pyJoin ("out") ("t" ++ "_original.mp4"))] :=
  C4_burn_failure_persists_both ⟨false, fun _ => Except.ok ()⟩ ("out") ("t") ("") ("tmp/t.srt")
    ("tmp/v.mp4") ("en") ("T") 0 ("en") rfl

/-- C10: on the degraded burn-failure path the Run Result still carries
`success = true` — the flag is set before the burn attempt and never reset —
alongside the warning. -/
theorem C10_burn_failure_success_flag (env : BurnEnv)
    (output_dir safe_title language_suffix srt_path video_path detected_lang video_title : String)
    (duration : ℚ) (subtitle_lang : String)
    (h : (burn_captions env video_path srt_path
          (pyJoin output_dir (safe_title ++ language_suffix ++ "_captioned.mp4"))).1 = false) :
    (web_output_phase env true output_dir safe_title language_suffix srt_path video_path
      detected_lang video_title duration subtitle_lang).1.success = true ∧
    (web_output_phase env true output_dir safe_title language_suffix srt_path video_path
      detected_lang video_title duration subtitle_lang).1.warning ≠ none := by
  constructor <;> simp [web_output_phase, h]

/-- Witness for C10 at a concrete degraded run. -/
theorem C10_burn_failure_success_flag_witness :
    (web_output_phase ⟨false, fun _ => Except.ok ()⟩ true ("out") ("t") ("") ("tmp/t.srt")
      ("tmp/v.mp4") ("en") ("T") 0 ("en")).1.success = true ∧
    (web_output_phase ⟨false, fun _ => Except.ok ()⟩ true ("out") ("t") ("") ("tmp/t.srt")
      ("tmp/v.mp4") ("en") ("T") 0 ("en")).1.warning ≠ none :=
  C10_burn_failure_success_flag ⟨false, fun _ => Except.ok ()⟩ ("out") ("t") ("") ("tmp/t.srt")
    ("tmp/v.mp4") ("en") ("T") 0 ("en") rfl
